import Mathlib

/-!
Shallow embedding of the core control logic of the White-Caves-DB repository:
the campaign dispatch loop `sendBroadcast` (src/unnamed/part_008) together
with its progress reporter `CampaignResult`
(src/whatsapp-bot-lion/code/Console/CampaignResult.js), and the inbound
message router `MessageAnalyzer` (src/unnamed/part_000).

External collaborators (the WhatsApp transport, the chat-history probe, the
session selector, the scheduler) are awaited promises whose behaviour for a
given contact or message is modelled by explicit oracle data; an uncaught
rejection of such a promise is an `Except.error`.
-/

namespace WhiteCaves

/-- Result of one awaited `findAndCheckChat` call as seen by the dispatcher:
either the promise rejects (the exception lands in the dispatcher's `try`
block), or it resolves and the dispatcher reads the optional `timestamp`
field of the resolved record via `validatedChatResult?.timestamp`. -/
inductive ProbeOutcome where
  | throws : ProbeOutcome
  | result : Option Int → ProbeOutcome
deriving DecidableEq, Repr

/-- JavaScript truthiness of the optional `timestamp` field read by
`validatedChatResult?.timestamp`: an absent field and the number 0 are
falsy, every other number is truthy. -/
def truthy : Option Int → Bool
  | none => false
  | some t => t != 0

/-- Modelled from the spec: `findAndCheckChat` is repository code that is not
under src/. Per the spec (section 4.3 and the design notes), a transport
failure inside the probe (`ProbeUnavailable`) is swallowed by the probe
itself and surfaces to the dispatcher as a resolved result that carries no
prior-conversation record, hence no timestamp. -/
def probeUnavailable : ProbeOutcome := ProbeOutcome.result none

/-- Modelled from the spec: `validateNumberWithCountryCode` is repository
code that is not under src/. Per the spec (section 4.1) its contract is
`normalize(raw) -> CanonicalId | InvalidFormat`: it returns either a
canonical identifier or the `InvalidFormat` signal as a value and does not
throw. (It is called outside the dispatcher's `try` block, so a throwing
validator would abort the whole run, contradicting the spec's contract.) -/
inductive ValidationResult where
  | canonical : String → ValidationResult
  | invalidFormat : ValidationResult
deriving DecidableEq, Repr

/-- Shape of the resolved value of `WhatsAppBotClient.sendMessage` that
`CampaignResult` consumes. `sender` is the JS field named `from` and
`toNumber` the JS field named `to` (both JS names are reserved words here).
Either field may be absent (undefined) in the resolved object. -/
structure SendReport where
  sender : Option String
  toNumber : Option String
deriving DecidableEq, Repr

/-- The structured progress record `CampaignResult` logs for one
successfully sent contact: iteration index, the running tallies, the total
of the run and the remaining count it computes. -/
structure ProgressRecord where
  projectName : String
  iteration : Nat
  successes : Nat
  skipped : Nat
  fails : Nat
  total : Nat
  remaining : Int
deriving DecidableEq, Repr

/-- Embedding of `CampaignResult`
(src/whatsapp-bot-lion/code/Console/CampaignResult.js). Its second
`console.log` evaluates `SendReport.to.length`, which throws a `TypeError`
when the report's `to` field is absent (`parseInt` of an absent field merely
yields `NaN` and does not throw); the thrown `TypeError` is `Except.error`.
Otherwise it logs the progress record, whose `remaining` field it computes
as `numbers.length - (fails + successes + skipped)`. -/
def CampaignResult (r : SendReport) (projectName : String)
    (successes skipped fails total i : Nat) : Except Unit ProgressRecord :=
  match r.toNumber with
  | none => Except.error ()
  | some _ =>
      Except.ok
        { projectName := projectName, iteration := i, successes := successes,
          skipped := skipped, fails := fails, total := total,
          remaining := (total : Int) - ((fails + successes + skipped : Nat) : Int) }

/-- Behaviour of the external collaborators for one loop iteration of
`sendBroadcast` (one contact). `SelectingBotForCampaign` is awaited outside
the dispatcher's `try` block, so `selectThrows` aborts the whole run;
`validation` is the value returned by the validator (it is carried through
but, faithful to the JS, never branched on by the dispatcher); `probe` is
the `findAndCheckChat` outcome; `sendThrows` tells whether
`WhatsAppBotClient.sendMessage` rejects, and `sendReport` is its resolved
value when it does not. -/
structure ContactBehavior where
  selectThrows : Bool
  validation : ValidationResult
  probe : ProbeOutcome
  sendThrows : Bool
  sendReport : SendReport
deriving DecidableEq, Repr

/-- Observable events of a run, recorded in chronological order: a
`findAndCheckChat` invocation, a `sendMessage` invocation, an emitted
progress record, and one execution of the randomized inter-send delay
`SleepTimeOfficialHoursWithRandomDelay`. -/
inductive Event where
  | probeCall : Event
  | sendCall : Event
  | progress : ProgressRecord → Event
  | sleep : Event
deriving DecidableEq, Repr

def isSendCall : Event → Bool
  | Event.sendCall => true
  | _ => false

def isSleep : Event → Bool
  | Event.sleep => true
  | _ => false

def isProgress : Event → Bool
  | Event.progress _ => true
  | _ => false

/-- The three counters of `sendBroadcast` together with the event trace. -/
structure RunState where
  successes : Nat
  fails : Nat
  skipped : Nat
  trace : List Event
deriving DecidableEq, Repr

def initState : RunState :=
  { successes := 0, fails := 0, skipped := 0, trace := [] }

def counterSum (s : RunState) : Nat := s.successes + s.fails + s.skipped

/-- One iteration of the `for` loop of `sendBroadcast`
(src/unnamed/part_008) for the contact at iteration index `i`, mirroring
the JS control flow exactly:
the session selector is awaited before the `try` block (a rejection aborts
the run); the validator result is a value and is not branched on; inside
`try`, `findAndCheckChat` runs first (a rejection is caught and counted as
a failure); if `newChatsOnly` holds and the probe result has a truthy
timestamp, `skipped++` and `continue` — the `continue` jumps over both
`CampaignResult` and the trailing `await SleepTimeOfficialHoursWithRandomDelay`;
otherwise `sendMessage` runs (a rejection is caught and counted as a
failure), then `successes++`, then `CampaignResult` (whose `TypeError` on a
report without a `to` field is caught by the same `catch`, incrementing
`fails` as well); every non-`continue` path then awaits the sleep, which is
modelled from the spec as a pure suspension that never throws. -/
def stepContact (newChatsOnly : Bool) (projectName : String) (total i : Nat)
    (b : ContactBehavior) (s : RunState) : Except Unit RunState :=
  if b.selectThrows then Except.error () else
  match b.probe with
  | ProbeOutcome.throws =>
      Except.ok { s with fails := s.fails + 1,
                         trace := s.trace ++ [Event.probeCall, Event.sleep] }
  | ProbeOutcome.result ts =>
      if newChatsOnly && truthy ts then
        Except.ok { s with skipped := s.skipped + 1,
                           trace := s.trace ++ [Event.probeCall] }
      else if b.sendThrows then
        Except.ok { s with fails := s.fails + 1,
                           trace := s.trace ++
                             [Event.probeCall, Event.sendCall, Event.sleep] }
      else
        match CampaignResult b.sendReport projectName
            (s.successes + 1) s.skipped s.fails total i with
        | Except.error _ =>
            Except.ok { s with successes := s.successes + 1, fails := s.fails + 1,
                               trace := s.trace ++
                                 [Event.probeCall, Event.sendCall, Event.sleep] }
        | Except.ok p =>
            Except.ok { s with successes := s.successes + 1,
                               trace := s.trace ++
                                 [Event.probeCall, Event.sendCall,
                                  Event.progress p, Event.sleep] }

/-- The `for (const [i, num] of numbers.entries())` loop: contacts are
processed strictly sequentially in the given (post-shuffle) order, starting
from iteration index `i`; an uncaught rejection aborts the run, otherwise
the loop continues with the updated state. -/
def runContacts (newChatsOnly : Bool) (projectName : String) (total : Nat) :
    List ContactBehavior → Nat → RunState → Except Unit RunState
  | [], _, s => Except.ok s
  | b :: rest, i, s =>
      match stepContact newChatsOnly projectName total i b s with
      | Except.error e => Except.error e
      | Except.ok s2 => runContacts newChatsOnly projectName total rest (i + 1) s2

/-- The record `sendBroadcast` returns to its caller: the JS return literal
is `{ successes, fails }` — it has exactly these two fields. -/
structure BroadcastResult where
  successes : Nat
  fails : Nat
deriving DecidableEq, Repr

/-- Embedding of `sendBroadcast` (src/unnamed/part_008). `ShuffleMyArray`
permutes the contact list before the loop; the behaviour list `bs` is taken
in the post-shuffle order. The function performs no startup validation: it
enters the loop directly and, on normal completion, returns the record
`{ successes, fails }` built from the final counters. -/
def sendBroadcast (newChatsOnly : Bool) (projectName : String)
    (bs : List ContactBehavior) : Except Unit BroadcastResult :=
  match runContacts newChatsOnly projectName bs.length bs 0 initState with
  | Except.error e => Except.error e
  | Except.ok s => Except.ok { successes := s.successes, fails := s.fails }

/-- Whether the iteration for contact behaviour `b` emits a progress record:
the skip branch is not taken, the send resolves, and the resolved report
carries a `to` field (so `CampaignResult` does not throw). -/
def emitsProgress (newChatsOnly : Bool) (b : ContactBehavior) : Bool :=
  match b.probe with
  | ProbeOutcome.throws => false
  | ProbeOutcome.result ts =>
      !(newChatsOnly && truthy ts) && !b.sendThrows && b.sendReport.toNumber.isSome

/-- Whether the iteration for contact behaviour `b` takes the
`skipped++; continue` branch. -/
def skipBranch (newChatsOnly : Bool) (b : ContactBehavior) : Bool :=
  match b.probe with
  | ProbeOutcome.throws => false
  | ProbeOutcome.result ts => newChatsOnly && truthy ts

/-- An inbound message event as consumed by `MessageAnalyzer`: the WhatsApp
message's `type`, `body` and `hasQuotedMsg` flag. -/
structure Msg where
  type : String
  body : String
  hasQuotedMsg : Bool
deriving DecidableEq, Repr

/-- The handler a `MessageAnalyzer` invocation dispatches to — one
constructor per branch of the `if`/`else if` chain in src/unnamed/part_000,
in source order. `faqReply` carries the answer passed to `msg.reply`
(`ClientAnswersArray[index]`, absent when the parallel answer array is too
short). `defaultChat` is the final `else` of the `chat` branch, `videoLog`
and `otherTypeLog` the non-`chat` branches. -/
inductive Handler where
  | ownerLookup : Handler
  | sharingMobileNumber : Handler
  | faqReply : Option String → Handler
  | lucySignup : Handler
  | agentRegister : Handler
  | secondaryOwner : Handler
  | missionSpeed : Handler
  | projectCampaign : String → Handler
  | defaultChat : Handler
  | videoLog : Handler
  | otherTypeLog : Handler
deriving DecidableEq, Repr

/-- Whether `pat` occurs as a contiguous run inside the character list. -/
def includesChars (pat : List Char) : List Char → Bool
  | [] => pat.isEmpty
  | c :: rest => List.isPrefixOf pat (c :: rest) || includesChars pat rest

/-- JavaScript `String.prototype.includes`: substring containment. -/
def includesStr (s pat : String) : Bool :=
  includesChars pat.toList s.toList

/-- The routing decision of `MessageAnalyzer` (src/unnamed/part_000):
the `if`/`else if` chain inside the `try` block, evaluated top to bottom,
parameterized by the process-wide `ClientQuestionsArray`,
`ClientAnswersArray` and the `ProjectName`s of `MyProjects`. Being a
function into a single `Handler`, it invokes at most one handler per
event, and the source order of the branches is preserved. -/
def analyzeRoute (questions answers projects : List String) (msg : Msg) :
    Handler :=
  if msg.type = "chat" then
    if msg.body = "Kindly share the mobile number of the owner" then
      Handler.ownerLookup
    else if includesStr msg.body "House Number/Municipality Number=" &&
        msg.hasQuotedMsg then
      Handler.sharingMobileNumber
    else if questions.contains msg.body then
      Handler.faqReply (answers.get? (List.findIdx (· == msg.body) questions))
    else if msg.body = "I want to signup as lucy" then
      Handler.lucySignup
    else if msg.body = "I want to register as agent" then
      Handler.agentRegister
    else if msg.body = "Kindly share the secondary mobile number of the owner" then
      Handler.secondaryOwner
    else if (projects.find? (· == msg.body)).isSome &&
        includesStr msg.body "Mission Speed" then
      Handler.missionSpeed
    else if (projects.find? (· == msg.body)).isSome then
      Handler.projectCampaign msg.body
    else
      Handler.defaultChat
  else if msg.type = "video" then
    Handler.videoLog
  else
    Handler.otherTypeLog

/-- How a `MessageAnalyzer` invocation ends: the `try` block ran to
completion, or an error was thrown inside it, caught by the `catch` clause
and logged. -/
inductive AnalyzerOutcome where
  | completed : AnalyzerOutcome
  | caughtError : AnalyzerOutcome
deriving DecidableEq, Repr

/-- The body of `MessageAnalyzer`'s `try` block: route the event and invoke
the chosen handler. `env h` tells whether invoking handler `h` throws (this
covers the awaited handler calls, `msg.reply`, and the `ReferenceError` the
`lucySignup` branch raises by calling the unimported
`WhatsAppClientFunctions`); a throw is `Except.error`. -/
def MessageAnalyzerBody (env : Handler → Bool)
    (questions answers projects : List String) (msg : Msg) :
    Except Unit Unit :=
  if env (analyzeRoute questions answers projects msg) then Except.error ()
  else Except.ok ()

/-- Embedding of the whole `MessageAnalyzer` function
(src/unnamed/part_000): its entire body is wrapped in `try ... catch
(error) { console.log(error) }`, so an error thrown anywhere in the body is
converted into a logged, normal completion; the `catch` clause itself only
calls `console.log`, which does not throw. An `Except.error` result would
mean an exception propagated to the caller. -/
def MessageAnalyzer (env : Handler → Bool)
    (questions answers projects : List String) (msg : Msg) :
    Except Unit AnalyzerOutcome :=
  match MessageAnalyzerBody env questions answers projects msg with
  | Except.ok _ => Except.ok AnalyzerOutcome.completed
  | Except.error _ => Except.ok AnalyzerOutcome.caughtError

/-! ## Shared helper lemmas -/

/-- Whenever the session selector does not reject, one loop iteration
completes without an uncaught exception. -/
lemma stepContact_isOk (nco : Bool) (proj : String) (total i : Nat)
    (b : ContactBehavior) (s : RunState) (hsel : b.selectThrows = false) :
    ∃ s2, stepContact nco proj total i b s = Except.ok s2 := by
  cases hres : stepContact nco proj total i b s with
  | ok s2 => exact ⟨s2, rfl⟩
  | error e =>
    exfalso
    unfold stepContact at hres
    split at hres
    · simp_all
    · split at hres
      · simp_all
      · split at hres
        · simp_all
        · split at hres
          · simp_all
          · split at hres <;> simp_all

/-- If the resolved send report carries a `to` field, one completed
iteration increments the counter sum by exactly one. -/
lemma stepContact_counterSum (nco : Bool) (proj : String) (total i : Nat)
    (b : ContactBehavior) (s s2 : RunState)
    (hrep : b.sendReport.toNumber.isSome = true)
    (h : stepContact nco proj total i b s = Except.ok s2) :
    counterSum s2 = counterSum s + 1 := by
  obtain ⟨tn, htn⟩ := Option.isSome_iff_exists.mp hrep
  cases hsel : b.selectThrows with
  | true => simp [stepContact, hsel] at h
  | false =>
    cases hp : b.probe with
    | throws =>
      simp [stepContact, hsel, hp] at h
      subst h
      simp [counterSum]
      omega
    | result ts =>
      cases hskip : nco && truthy ts with
      | true =>
        simp [stepContact, hsel, hp, hskip] at h
        subst h
        simp [counterSum]
        omega
      | false =>
        cases hst : b.sendThrows with
        | true =>
          simp [stepContact, hsel, hp, hskip, hst] at h
          subst h
          simp [counterSum]
          omega
        | false =>
          simp [stepContact, hsel, hp, hskip, hst, CampaignResult, htn] at h
          subst h
          simp [counterSum]
          omega

/-- Counter-sum accounting over the whole loop, for runs in which every
resolved send report carries a `to` field. -/
lemma runContacts_counterSum (nco : Bool) (proj : String) (total : Nat) :
    ∀ (bs : List ContactBehavior) (i : Nat) (s st : RunState),
      (∀ b ∈ bs, b.sendReport.toNumber.isSome = true) →
      runContacts nco proj total bs i s = Except.ok st →
      counterSum st = counterSum s + bs.length := by
  intro bs
  induction bs with
  | nil =>
    intro i s st _ hrun
    simp [runContacts] at hrun
    subst hrun
    simp
  | cons b rest ih =>
    intro i s st hrep hrun
    simp only [runContacts] at hrun
    cases hstep : stepContact nco proj total i b s with
    | error e => rw [hstep] at hrun; exact Except.noConfusion hrun
    | ok s2 =>
      rw [hstep] at hrun
      have h1 : counterSum s2 = counterSum s + 1 :=
        stepContact_counterSum nco proj total i b s s2
          (hrep b (List.mem_cons_self b rest)) hstep
      have h2 : counterSum st = counterSum s2 + rest.length :=
        ih (i + 1) s2 st (fun c hc => hrep c (List.mem_cons_of_mem b hc)) hrun
      simp [h1, List.length_cons] at h2 ⊢
      omega

/-! ## Claims -/

/-- C4: for a contact in new-contacts-only mode whose probe result carries a
(truthy) timestamp, the iteration completes with the skipped counter
incremented by exactly one, the success and failure counters unchanged, and
no `sendMessage` invocation recorded in the trace. -/
theorem newChatsOnly_found_contact_skipped
    (proj : String) (total i : Nat) (b : ContactBehavior) (s : RunState)
    (ts : Option Int)
    (hsel : b.selectThrows = false) (hp : b.probe = ProbeOutcome.result ts)
    (ht : truthy ts = true) :
    ∃ s2, stepContact true proj total i b s = Except.ok s2
      ∧ s2.skipped = s.skipped + 1
      ∧ s2.successes = s.successes
      ∧ s2.fails = s.fails
      ∧ List.countP isSendCall s2.trace = List.countP isSendCall s.trace := by
  refine ⟨{ s with
            skipped := s.skipped + 1
            trace := s.trace ++ [Event.probeCall] }, ?_, rfl, rfl, rfl, ?_⟩
  · simp [stepContact, hsel, hp, ht]
  · simp [List.countP_append, isSendCall]

/-- C4 witness: a concrete contact with a prior chat (timestamp 3) in
new-contacts-only mode is skipped without a send. -/
theorem newChatsOnly_found_contact_skipped_witness :
    ∃ s2, stepContact true "P" 1 0
        { selectThrows := false,
          validation := ValidationResult.canonical "971501112222",
          probe := ProbeOutcome.result (some 3), sendThrows := false,
          sendReport := { sender := some "me", toNumber := some "971501112222" } }
        initState
      = Except.ok s2
      ∧ s2.skipped = initState.skipped + 1
      ∧ s2.successes = initState.successes
      ∧ s2.fails = initState.fails
      ∧ List.countP isSendCall s2.trace = List.countP isSendCall initState.trace :=
  newChatsOnly_found_contact_skipped "P" 1 0 _ initState (some 3)
    rfl rfl (by decide)

/-- C6: a contact whose probe ends in `ProbeUnavailable` (modelled from the
spec as a resolved result with no timestamp) is treated like a contact with
no prior conversation: the iteration completes normally, the skipped counter
is unchanged, `sendMessage` is invoked for the contact, and the counters
afterwards reflect only the send outcome — the probe failure itself neither
fails nor skips the contact. -/
theorem probeUnavailable_proceeds_to_send
    (nco : Bool) (proj : String) (total i : Nat) (b : ContactBehavior)
    (s : RunState)
    (hsel : b.selectThrows = false) (hp : b.probe = probeUnavailable) :
    ∃ s2, stepContact nco proj total i b s = Except.ok s2
      ∧ s2.skipped = s.skipped
      ∧ List.countP isSendCall s2.trace = List.countP isSendCall s.trace + 1
      ∧ (b.sendThrows = true → s2.fails = s.fails + 1 ∧ s2.successes = s.successes)
      ∧ (b.sendThrows = false → b.sendReport.toNumber.isSome = true →
          s2.successes = s.successes + 1 ∧ s2.fails = s.fails) := by
  rw [probeUnavailable] at hp
  cases hst : b.sendThrows with
  | true =>
    refine ⟨{ s with
              fails := s.fails + 1
              trace := s.trace ++ [Event.probeCall, Event.sendCall, Event.sleep] },
        ?_, rfl, ?_, fun _ => ⟨rfl, rfl⟩, fun hc _ => absurd hc (by simp)⟩
    · simp [stepContact, hsel, hp, truthy, hst]
    · simp [List.countP_append, isSendCall]
  | false =>
    cases htn : b.sendReport.toNumber with
    | none =>
      refine ⟨{ s with
                successes := s.successes + 1
                fails := s.fails + 1
                trace := s.trace ++ [Event.probeCall, Event.sendCall, Event.sleep] },
          ?_, rfl, ?_, fun hc => absurd hc (by simp),
          fun _ hns => absurd hns (by simp [htn])⟩
      · simp [stepContact, hsel, hp, truthy, hst, CampaignResult, htn]
      · simp [List.countP_append, isSendCall]
    | some tn =>
      refine ⟨{ s with
                successes := s.successes + 1
                trace := s.trace ++ [Event.probeCall, Event.sendCall,
                  Event.progress
                    { projectName := proj, iteration := i,
                      successes := s.successes + 1, skipped := s.skipped,
                      fails := s.fails, total := total,
                      remaining := (total : Int) -
                        ((s.fails + (s.successes + 1) + s.skipped : Nat) : Int) },
                  Event.sleep] },
          ?_, rfl, ?_, fun hc => absurd hc (by simp), fun _ _ => ⟨rfl, rfl⟩⟩
      · simp [stepContact, hsel, hp, truthy, hst, CampaignResult, htn]
      · simp [List.countP_append, isSendCall]

/-- C6 witness: a concrete contact whose probe was unavailable is sent to
and counted as a success. -/
theorem probeUnavailable_proceeds_to_send_witness :
    ∃ s2, stepContact false "P" 1 0
        { selectThrows := false,
          validation := ValidationResult.canonical "971501112223",
          probe := probeUnavailable, sendThrows := false,
          sendReport := { sender := some "me", toNumber := some "971501112223" } }
        initState
      = Except.ok s2
      ∧ s2.skipped = initState.skipped
      ∧ List.countP isSendCall s2.trace = List.countP isSendCall initState.trace + 1
      ∧ (false = true → s2.fails = initState.fails + 1 ∧ s2.successes = initState.successes)
      ∧ (false = false → (some "971501112223" : Option String).isSome = true →
          s2.successes = initState.successes + 1 ∧ s2.fails = initState.fails) :=
  probeUnavailable_proceeds_to_send false "P" 1 0 _ initState rfl rfl

/-- C7 (counterexample): the dispatcher never branches on the validation
result — there is no InvalidFormat → Failed transition in the code. An
`InvalidFormat` contact whose probe and send both resolve is counted as a
success: the one-contact run below completes normally with successes = 1
and fails = 0, refuting the claim that the failure counter increments for
every invalid contact. -/
theorem invalidFormat_counted_as_success :
    runContacts true "P" 1
        [{ selectThrows := false, validation := ValidationResult.invalidFormat,
           probe := ProbeOutcome.result none, sendThrows := false,
           sendReport := { sender := some "me", toNumber := some "0501234567" } }]
        0 initState
      = Except.ok { successes := 1, fails := 0, skipped := 0,
                    trace := [Event.probeCall, Event.sendCall,
                      Event.progress
                        { projectName := "P", iteration := 0, successes := 1,
                          skipped := 0, fails := 0, total := 1, remaining := 0 },
                      Event.sleep] }
    ∧ ({ successes := 1, fails := 0, skipped := 0,
         trace := [Event.probeCall, Event.sendCall,
           Event.progress
             { projectName := "P", iteration := 0, successes := 1,
               skipped := 0, fails := 0, total := 1, remaining := 0 },
           Event.sleep] } : RunState).fails ≠ 1 :=
  ⟨rfl, by decide⟩

/-- C7 (amended): a contact whose raw identifier fails validation
(`InvalidFormat` — modelled from the spec as a value returned by the
validator, never a throw) cannot abort the run: its iteration always
completes and the loop moves on to the remaining contacts. Its outcome is
decided solely by the downstream transport calls, since the dispatcher
never branches on the validation result: the contact is counted as exactly
one failure when `findAndCheckChat` or `sendMessage` rejects for it inside
the `try`, and is otherwise counted as a success. -/
theorem invalidFormat_outcome_decided_by_transport
    (nco : Bool) (proj : String) (total i : Nat) (b : ContactBehavior)
    (s : RunState)
    (_hval : b.validation = ValidationResult.invalidFormat)
    (hsel : b.selectThrows = false) :
    (∃ s2, stepContact nco proj total i b s = Except.ok s2)
    ∧ (∀ (rest : List ContactBehavior) (s2 : RunState),
        stepContact nco proj total i b s = Except.ok s2 →
        runContacts nco proj total (b :: rest) i s
          = runContacts nco proj total rest (i + 1) s2)
    ∧ (b.probe = ProbeOutcome.throws →
        stepContact nco proj total i b s
          = Except.ok { s with
                        fails := s.fails + 1
                        trace := s.trace ++ [Event.probeCall, Event.sleep] })
    ∧ (∀ ts, b.probe = ProbeOutcome.result ts → (nco && truthy ts) = false →
        b.sendThrows = true →
        stepContact nco proj total i b s
          = Except.ok { s with
                        fails := s.fails + 1
                        trace := s.trace ++
                          [Event.probeCall, Event.sendCall, Event.sleep] })
    ∧ (∀ ts, b.probe = ProbeOutcome.result ts → (nco && truthy ts) = false →
        b.sendThrows = false → b.sendReport.toNumber.isSome = true →
        ∃ s2, stepContact nco proj total i b s = Except.ok s2
          ∧ s2.successes = s.successes + 1 ∧ s2.fails = s.fails
          ∧ s2.skipped = s.skipped) := by
  refine ⟨stepContact_isOk nco proj total i b s hsel, ?_, ?_, ?_, ?_⟩
  · intro rest s2 hstep
    simp [runContacts, hstep]
  · intro hp
    simp [stepContact, hsel, hp]
  · intro ts hp hskip hst
    simp [stepContact, hsel, hp, hskip, hst]
  · intro ts hp hskip hst htn
    obtain ⟨tn, htn2⟩ := Option.isSome_iff_exists.mp htn
    refine ⟨{ s with
              successes := s.successes + 1
              trace := s.trace ++ [Event.probeCall, Event.sendCall,
                Event.progress
                  { projectName := proj, iteration := i,
                    successes := s.successes + 1, skipped := s.skipped,
                    fails := s.fails, total := total,
                    remaining := (total : Int) -
                      ((s.fails + (s.successes + 1) + s.skipped : Nat) : Int) },
                Event.sleep] }, ?_, rfl, rfl, rfl⟩
    simp [stepContact, hsel, hp, hskip, hst, CampaignResult, htn2]

/-- C7 witness: a concrete invalid contact whose probe and send resolve —
the run continues and the contact is counted as a success, not a failure. -/
theorem invalidFormat_outcome_decided_by_transport_witness :
    (∃ s2, stepContact true "P" 1 0
        { selectThrows := false, validation := ValidationResult.invalidFormat,
          probe := ProbeOutcome.result none, sendThrows := false,
          sendReport := { sender := some "me", toNumber := some "0501234567" } }
        initState = Except.ok s2)
    ∧ (∀ (rest : List ContactBehavior) (s2 : RunState),
        stepContact true "P" 1 0
          { selectThrows := false, validation := ValidationResult.invalidFormat,
            probe := ProbeOutcome.result none, sendThrows := false,
            sendReport := { sender := some "me", toNumber := some "0501234567" } }
          initState = Except.ok s2 →
        runContacts true "P" 1
            ({ selectThrows := false, validation := ValidationResult.invalidFormat,
               probe := ProbeOutcome.result none, sendThrows := false,
               sendReport := { sender := some "me", toNumber := some "0501234567" } }
              :: rest)
            0 initState
          = runContacts true "P" 1 rest (0 + 1) s2)
    ∧ (({ selectThrows := false, validation := ValidationResult.invalidFormat,
          probe := ProbeOutcome.result none, sendThrows := false,
          sendReport := { sender := some "me", toNumber := some "0501234567" } }
            : ContactBehavior).probe = ProbeOutcome.throws →
        stepContact true "P" 1 0
          { selectThrows := false, validation := ValidationResult.invalidFormat,
            probe := ProbeOutcome.result none, sendThrows := false,
            sendReport := { sender := some "me", toNumber := some "0501234567" } }
          initState
        = Except.ok { initState with
                      fails := initState.fails + 1
                      trace := initState.trace ++ [Event.probeCall, Event.sleep] })
    ∧ (∀ ts, ({ selectThrows := false,
                validation := ValidationResult.invalidFormat,
                probe := ProbeOutcome.result none, sendThrows := false,
                sendReport := { sender := some "me", toNumber := some "0501234567" } }
            : ContactBehavior).probe = ProbeOutcome.result ts →
        (true && truthy ts) = false →
        ({ selectThrows := false, validation := ValidationResult.invalidFormat,
           probe := ProbeOutcome.result none, sendThrows := false,
           sendReport := { sender := some "me", toNumber := some "0501234567" } }
             : ContactBehavior).sendThrows = true →
        stepContact true "P" 1 0
          { selectThrows := false, validation := ValidationResult.invalidFormat,
            probe := ProbeOutcome.result none, sendThrows := false,
            sendReport := { sender := some "me", toNumber := some "0501234567" } }
          initState
        = Except.ok { initState with
                      fails := initState.fails + 1
                      trace := initState.trace ++
                        [Event.probeCall, Event.sendCall, Event.sleep] })
    ∧ (∀ ts, ({ selectThrows := false,
                validation := ValidationResult.invalidFormat,
                probe := ProbeOutcome.result none, sendThrows := false,
                sendReport := { sender := some "me", toNumber := some "0501234567" } }
            : ContactBehavior).probe = ProbeOutcome.result ts →
        (true && truthy ts) = false →
        ({ selectThrows := false, validation := ValidationResult.invalidFormat,
           probe := ProbeOutcome.result none, sendThrows := false,
           sendReport := { sender := some "me", toNumber := some "0501234567" } }
             : ContactBehavior).sendThrows = false →
        ({ selectThrows := false, validation := ValidationResult.invalidFormat,
           probe := ProbeOutcome.result none, sendThrows := false,
           sendReport := { sender := some "me", toNumber := some "0501234567" } }
             : ContactBehavior).sendReport.toNumber.isSome = true →
        ∃ s2, stepContact true "P" 1 0
            { selectThrows := false, validation := ValidationResult.invalidFormat,
              probe := ProbeOutcome.result none, sendThrows := false,
              sendReport := { sender := some "me", toNumber := some "0501234567" } }
            initState = Except.ok s2
          ∧ s2.successes = initState.successes + 1 ∧ s2.fails = initState.fails
          ∧ s2.skipped = initState.skipped) :=
  invalidFormat_outcome_decided_by_transport true "P" 1 0
    { selectThrows := false, validation := ValidationResult.invalidFormat,
      probe := ProbeOutcome.result none, sendThrows := false,
      sendReport := { sender := some "me", toNumber := some "0501234567" } }
    initState rfl rfl

/-- C9 (counterexample): contrary to the claim that an empty contact list is
a fatal configuration error at startup, a run over the empty list completes
normally, returning zero counters — no error is raised. -/
theorem emptyRun_completes_normally :
    sendBroadcast true "WhiteCaves" [] = Except.ok { successes := 0, fails := 0 } :=
  rfl

/-- C9 (amended): `sendBroadcast` performs no startup validation; with an
empty contact list the run completes normally with zero counters and an
empty trace — no contact is probed or sent, and no error is raised. -/
theorem emptyRun_returns_zero_counters (nco : Bool) (proj : String) :
    sendBroadcast nco proj [] = Except.ok { successes := 0, fails := 0 }
    ∧ runContacts nco proj 0 [] 0 initState = Except.ok initState
    ∧ initState.trace = [] :=
  ⟨rfl, rfl, rfl⟩

/-- C10: a normally completing run returns to the caller exactly the record
`{ successes, fails }` built from the final counters; the `BroadcastResult`
type mirrors the JS return literal and has no skipped field. -/
theorem sendBroadcast_returns_exactly_counts
    (nco : Bool) (proj : String) (bs : List ContactBehavior) (st : RunState)
    (hrun : runContacts nco proj bs.length bs 0 initState = Except.ok st) :
    sendBroadcast nco proj bs
      = Except.ok { successes := st.successes, fails := st.fails } := by
  simp [sendBroadcast, hrun]

/-- C10 witness: a concrete one-contact run returns `{ successes := 1,
fails := 0 }` and nothing else. -/
theorem sendBroadcast_returns_exactly_counts_witness :
    sendBroadcast true "P"
        [{ selectThrows := false,
           validation := ValidationResult.canonical "971501112222",
           probe := ProbeOutcome.result none, sendThrows := false,
           sendReport := { sender := some "me", toNumber := some "971501112222" } }]
      = Except.ok { successes := 1, fails := 0 } :=
  sendBroadcast_returns_exactly_counts true "P"
    [{ selectThrows := false,
       validation := ValidationResult.canonical "971501112222",
       probe := ProbeOutcome.result none, sendThrows := false,
       sendReport := { sender := some "me", toNumber := some "971501112222" } }]
    { successes := 1, fails := 0, skipped := 0,
      trace := [Event.probeCall, Event.sendCall,
        Event.progress
          { projectName := "P", iteration := 0, successes := 1, skipped := 0,
            fails := 0, total := 1, remaining := 0 },
        Event.sleep] }
    rfl

/-- C1 (counterexample): a one-contact run in which the send resolves but
the delivery report lacks its `to` field completes normally with
successes = 1 AND fails = 1: `CampaignResult` throws a `TypeError` after
`successes++`, the `catch` then increments `fails` as well, so that single
iteration increments two counters and the counter sum is 2 ≠ 1. -/
theorem run_counter_sum_violated :
    runContacts true "P" 1
        [{ selectThrows := false,
           validation := ValidationResult.canonical "971501112222",
           probe := ProbeOutcome.result none, sendThrows := false,
           sendReport := { sender := some "me", toNumber := none } }] 0 initState
      = Except.ok { successes := 1, fails := 1, skipped := 0,
                    trace := [Event.probeCall, Event.sendCall, Event.sleep] }
    ∧ counterSum { successes := 1, fails := 1, skipped := 0,
                   trace := [Event.probeCall, Event.sendCall, Event.sleep] } ≠ 1 :=
  ⟨rfl, by decide⟩

/-- C1 (amended): in every normally completing run in which no
`CampaignResult` progress call throws (every resolved delivery report
carries its `to` field), each iteration increments exactly one counter and
the final counters satisfy successes + fails + skipped = k for a list of k
contacts. -/
theorem run_counter_sum_eq_length
    (nco : Bool) (proj : String) (bs : List ContactBehavior) (st : RunState)
    (hrep : ∀ b ∈ bs, b.sendReport.toNumber.isSome = true)
    (hrun : runContacts nco proj bs.length bs 0 initState = Except.ok st) :
    st.successes + st.fails + st.skipped = bs.length := by
  have h := runContacts_counterSum nco proj bs.length bs 0 initState st hrep hrun
  simpa [counterSum, initState] using h

/-- C1 witness: a concrete one-contact run with a well-formed delivery
report completes with counter sum 1. -/
theorem run_counter_sum_eq_length_witness :
    runContacts true "P" 1
        [{ selectThrows := false,
           validation := ValidationResult.canonical "971501112222",
           probe := ProbeOutcome.result none, sendThrows := false,
           sendReport := { sender := some "me", toNumber := some "971501112222" } }]
        0 initState
      = Except.ok { successes := 1, fails := 0, skipped := 0,
                    trace := [Event.probeCall, Event.sendCall,
                      Event.progress
                        { projectName := "P", iteration := 0, successes := 1,
                          skipped := 0, fails := 0, total := 1, remaining := 0 },
                      Event.sleep] }
    ∧ (1 : Nat) + 0 + 0 = 1 :=
  ⟨rfl, run_counter_sum_eq_length true "P"
    [{ selectThrows := false,
       validation := ValidationResult.canonical "971501112222",
       probe := ProbeOutcome.result none, sendThrows := false,
       sendReport := { sender := some "me", toNumber := some "971501112222" } }]
    { successes := 1, fails := 0, skipped := 0,
      trace := [Event.probeCall, Event.sendCall,
        Event.progress
          { projectName := "P", iteration := 0, successes := 1,
            skipped := 0, fails := 0, total := 1, remaining := 0 },
        Event.sleep] }
    (by decide) rfl⟩

/-- C2 (counterexample): a skipped contact produces no progress
observation — the one-contact run below is processed (skipped = 1) yet its
trace contains no progress record, contradicting the claim that the tallies
are emitted after every contact regardless of outcome. -/
theorem progress_missing_for_skipped :
    runContacts true "P" 1
        [{ selectThrows := false,
           validation := ValidationResult.canonical "971501112222",
           probe := ProbeOutcome.result (some 1700000000), sendThrows := false,
           sendReport := { sender := some "me", toNumber := some "971501112222" } }]
        0 initState
      = Except.ok { successes := 0, fails := 0, skipped := 1,
                    trace := [Event.probeCall] }
    ∧ List.countP isProgress [Event.probeCall] = 0 :=
  ⟨rfl, rfl⟩

/-- C2 (amended): a progress observation is emitted for exactly those
contacts whose send resolved and whose delivery report carries its `to`
field (so `CampaignResult` ran to completion); for such a contact the
emitted record holds the running tallies (with successes already
incremented) and remaining = total − (fails + successes + skipped).
Skipped contacts (`continue` jumps over the call) and failed contacts (the
exception jumps over it) emit none. -/
theorem progress_emitted_only_after_sent
    (nco : Bool) (proj : String) (total i : Nat) (b : ContactBehavior)
    (s s2 : RunState)
    (hsel : b.selectThrows = false)
    (h : stepContact nco proj total i b s = Except.ok s2) :
    List.countP isProgress s2.trace
      = List.countP isProgress s.trace + (if emitsProgress nco b then 1 else 0)
    ∧ (emitsProgress nco b = true →
        s2.trace = s.trace ++
          [Event.probeCall, Event.sendCall,
           Event.progress
             { projectName := proj, iteration := i, successes := s.successes + 1,
               skipped := s.skipped, fails := s.fails, total := total,
               remaining := (total : Int) -
                 ((s.fails + (s.successes + 1) + s.skipped : Nat) : Int) },
           Event.sleep]) := by
  cases hp : b.probe with
  | throws =>
    simp [stepContact, hsel, hp] at h
    subst h
    refine ⟨?_, ?_⟩
    · simp [List.countP_append, isProgress, emitsProgress, hp]
    · intro he
      simp [emitsProgress, hp] at he
  | result ts =>
    cases hskip : nco && truthy ts with
    | true =>
      simp [stepContact, hsel, hp, hskip] at h
      subst h
      refine ⟨?_, ?_⟩
      · simp [List.countP_append, isProgress, emitsProgress, hp, hskip]
      · intro he
        simp [emitsProgress, hp, hskip] at he
    | false =>
      cases hst : b.sendThrows with
      | true =>
        simp [stepContact, hsel, hp, hskip, hst] at h
        subst h
        refine ⟨?_, ?_⟩
        · simp [List.countP_append, isProgress, emitsProgress, hp, hskip, hst]
        · intro he
          simp [emitsProgress, hp, hskip, hst] at he
      | false =>
        cases htn : b.sendReport.toNumber with
        | none =>
          simp [stepContact, hsel, hp, hskip, hst, CampaignResult, htn] at h
          subst h
          refine ⟨?_, ?_⟩
          · simp [List.countP_append, isProgress, emitsProgress, hp, hskip, hst, htn]
          · intro he
            simp [emitsProgress, hp, hskip, hst, htn] at he
        | some tn =>
          simp [stepContact, hsel, hp, hskip, hst, CampaignResult, htn] at h
          subst h
          refine ⟨?_, ?_⟩
          · simp [List.countP_append, isProgress, emitsProgress, hp, hskip, hst, htn]
          · intro _
            simp

/-- C2 witness: a concrete successfully sent contact emits exactly one
progress record carrying the running tallies. -/
theorem progress_emitted_only_after_sent_witness :
    List.countP isProgress
        ({ successes := 1, fails := 0, skipped := 0,
           trace := [Event.probeCall, Event.sendCall,
             Event.progress
               { projectName := "P", iteration := 0, successes := 1,
                 skipped := 0, fails := 0, total := 1, remaining := 0 },
             Event.sleep] } : RunState).trace
      = List.countP isProgress initState.trace
        + (if emitsProgress true
              { selectThrows := false,
                validation := ValidationResult.canonical "971501112222",
                probe := ProbeOutcome.result none, sendThrows := false,
                sendReport := { sender := some "me", toNumber := some "971501112222" } }
            then 1 else 0)
    ∧ (emitsProgress true
          { selectThrows := false,
            validation := ValidationResult.canonical "971501112222",
            probe := ProbeOutcome.result none, sendThrows := false,
            sendReport := { sender := some "me", toNumber := some "971501112222" } }
          = true →
        ({ successes := 1, fails := 0, skipped := 0,
           trace := [Event.probeCall, Event.sendCall,
             Event.progress
               { projectName := "P", iteration := 0, successes := 1,
                 skipped := 0, fails := 0, total := 1, remaining := 0 },
             Event.sleep] } : RunState).trace
          = initState.trace ++
            [Event.probeCall, Event.sendCall,
             Event.progress
               { projectName := "P", iteration := 0,
                 successes := initState.successes + 1,
                 skipped := initState.skipped, fails := initState.fails,
                 total := 1,
                 remaining := (1 : Int) -
                   ((initState.fails + (initState.successes + 1)
                      + initState.skipped : Nat) : Int) },
             Event.sleep]) :=
  progress_emitted_only_after_sent true "P" 1 0
    { selectThrows := false,
      validation := ValidationResult.canonical "971501112222",
      probe := ProbeOutcome.result none, sendThrows := false,
      sendReport := { sender := some "me", toNumber := some "971501112222" } }
    initState
    { successes := 1, fails := 0, skipped := 0,
      trace := [Event.probeCall, Event.sendCall,
        Event.progress
          { projectName := "P", iteration := 0, successes := 1,
            skipped := 0, fails := 0, total := 1, remaining := 0 },
        Event.sleep] }
    rfl rfl

/-- C3 (counterexample): a skipped contact bypasses the randomized delay —
the `continue` in the skip branch jumps over the trailing
`await SleepTimeOfficialHoursWithRandomDelay`, so this processed contact
records zero sleep executions, contradicting the claim that the delay fires
once per contact regardless of outcome. -/
theorem sleep_skipped_for_skipped_contact :
    runContacts true "P" 1
        [{ selectThrows := false,
           validation := ValidationResult.canonical "971501112222",
           probe := ProbeOutcome.result (some 42), sendThrows := false,
           sendReport := { sender := some "me", toNumber := some "971501112222" } }]
        0 initState
      = Except.ok { successes := 0, fails := 0, skipped := 1,
                    trace := [Event.probeCall] }
    ∧ List.countP isSleep [Event.probeCall] = 0 :=
  ⟨rfl, rfl⟩

/-- C3 (amended): the randomized inter-send delay executes exactly once for
every contact whose outcome is sent or failed, and zero times for a skipped
contact (whose `continue` bypasses the delay). -/
theorem sleep_fires_for_sent_or_failed
    (nco : Bool) (proj : String) (total i : Nat) (b : ContactBehavior)
    (s s2 : RunState)
    (hsel : b.selectThrows = false)
    (h : stepContact nco proj total i b s = Except.ok s2) :
    List.countP isSleep s2.trace
      = List.countP isSleep s.trace + (if skipBranch nco b then 0 else 1) := by
  cases hp : b.probe with
  | throws =>
    simp [stepContact, hsel, hp] at h
    subst h
    simp [List.countP_append, isSleep, skipBranch, hp]
  | result ts =>
    cases hskip : nco && truthy ts with
    | true =>
      simp [stepContact, hsel, hp, hskip] at h
      subst h
      simp [List.countP_append, isSleep, skipBranch, hp, hskip]
    | false =>
      cases hst : b.sendThrows with
      | true =>
        simp [stepContact, hsel, hp, hskip, hst] at h
        subst h
        simp [List.countP_append, isSleep, skipBranch, hp, hskip]
      | false =>
        cases htn : b.sendReport.toNumber with
        | none =>
          simp [stepContact, hsel, hp, hskip, hst, CampaignResult, htn] at h
          subst h
          simp [List.countP_append, isSleep, skipBranch, hp, hskip]
        | some tn =>
          simp [stepContact, hsel, hp, hskip, hst, CampaignResult, htn] at h
          subst h
          simp [List.countP_append, isSleep, isProgress, skipBranch, hp, hskip]

/-- C3 witness: a concrete failed contact (its probe rejects) still executes
the delay exactly once. -/
theorem sleep_fires_for_sent_or_failed_witness :
    List.countP isSleep
        ({ successes := 0, fails := 1, skipped := 0,
           trace := [Event.probeCall, Event.sleep] } : RunState).trace
      = List.countP isSleep initState.trace
        + (if skipBranch true
              { selectThrows := false,
                validation := ValidationResult.canonical "971501112222",
                probe := ProbeOutcome.throws, sendThrows := false,
                sendReport := { sender := some "me", toNumber := some "971501112222" } }
            then 0 else 1) :=
  sleep_fires_for_sent_or_failed true "P" 1 0
    { selectThrows := false,
      validation := ValidationResult.canonical "971501112222",
      probe := ProbeOutcome.throws, sendThrows := false,
      sendReport := { sender := some "me", toNumber := some "971501112222" } }
    initState
    { successes := 0, fails := 1, skipped := 0,
      trace := [Event.probeCall, Event.sleep] }
    rfl rfl

/-- JavaScript `findIndex` semantics: if position `j` holds `b` and no
earlier position does, then `findIdx` of the first-match predicate is `j`. -/
lemma findIdx_eq_of_first :
    ∀ (l : List String) (j : Nat) (b : String),
      l.get? j = some b → (∀ k, k < j → l.get? k ≠ some b) →
      List.findIdx (· == b) l = j := by
  intro l
  induction l with
  | nil =>
    intro j b hj _
    simp at hj
  | cons a t ih =>
    intro j b hj hmin
    cases j with
    | zero =>
      simp at hj
      subst hj
      simp [List.findIdx_cons]
    | succ j =>
      have ha : ¬(a = b) := by
        intro hab
        exact hmin 0 (Nat.succ_pos j) (by simp [hab])
      have ht : List.findIdx (· == b) t = j :=
        ih j b (by simpa using hj) (fun k hk => by
          have := hmin (k + 1) (Nat.succ_lt_succ hk)
          simpa using this)
      have hab : (a == b) = false := beq_eq_false_iff_ne.mpr ha
      simp [List.findIdx_cons, hab, ht]

/-- C5: the router is a single function into one `Handler`, so at most one
handler fires per event; and for a text (`chat`) message whose body matches
no earlier rule and equals the FAQ question at position `j` — `j` being the
first such position — the invoked handler replies with the answer at
position `j` of the parallel answer sequence. The project list is
universally quantified, so a body that also names a campaign still gets the
FAQ reply: the later, broader rule cannot shadow this one. -/
theorem faq_reply_uses_first_matching_index
    (questions answers projects : List String) (msg : Msg) (j : Nat)
    (htype : msg.type = "chat")
    (h1 : msg.body ≠ "Kindly share the mobile number of the owner")
    (h2 : (includesStr msg.body "House Number/Municipality Number=" &&
            msg.hasQuotedMsg) = false)
    (hj : questions.get? j = some msg.body)
    (hfirst : ∀ k, k < j → questions.get? k ≠ some msg.body) :
    analyzeRoute questions answers projects msg
      = Handler.faqReply (answers.get? j) := by
  have hmem : msg.body ∈ questions := List.mem_iff_get?.mpr ⟨j, hj⟩
  have hidx : List.findIdx (· == msg.body) questions = j :=
    findIdx_eq_of_first questions j msg.body hj hfirst
  simp [analyzeRoute, htype, h1, h2, hmem, hidx]

/-- C5 witness: a concrete FAQ body that is also a campaign name gets the
FAQ answer at the first matching index. -/
theorem faq_reply_uses_first_matching_index_witness :
    analyzeRoute ["What is the price?", "Where is it located?"]
        ["2.5M AED", "Dubai Marina"] ["Where is it located?"]
        { type := "chat", body := "Where is it located?", hasQuotedMsg := false }
      = Handler.faqReply ((["2.5M AED", "Dubai Marina"] : List String).get? 1) :=
  faq_reply_uses_first_matching_index
    ["What is the price?", "Where is it located?"]
    ["2.5M AED", "Dubai Marina"] ["Where is it located?"]
    { type := "chat", body := "Where is it located?", hasQuotedMsg := false }
    1 rfl (by decide) (by decide) rfl (by decide)

/-- C8: `MessageAnalyzer` never lets an error escape to its caller — for
every message and every handler behaviour it returns `Except.ok`: the
normal completion when the invoked handler does not throw, and the
logged-and-dropped outcome when it does; an `Except.error` result (a
propagated exception) is impossible. -/
theorem messageAnalyzer_never_propagates
    (env : Handler → Bool) (questions answers projects : List String)
    (msg : Msg) :
    MessageAnalyzer env questions answers projects msg
      = Except.ok (if env (analyzeRoute questions answers projects msg)
          then AnalyzerOutcome.caughtError else AnalyzerOutcome.completed) := by
  by_cases he : env (analyzeRoute questions answers projects msg) = true
  · simp [MessageAnalyzer, MessageAnalyzerBody, he]
  · simp only [Bool.not_eq_true] at he
    simp [MessageAnalyzer, MessageAnalyzerBody, he]

end WhiteCaves
